import Mathlib

/-!
Verification of the Visual Studio toolchain discovery-and-selection algorithm
(`toolsrc/src/vcpkg/visualstudio.cpp`).

The embedding models filesystem paths as lists of components, the read-only
filesystem probes as a record of Boolean-valued functions, and the two core
routines `get_visual_studio_instances` and `find_toolset_instances_preferred_first`
as pure functions.  Process termination (`Checks::unreachable`, `Checks::check_exit`,
`Checks::exit_fail`) is modelled with `Except` / an explicit result constructor.
-/

namespace Vcpkg

/-- A filesystem path, modelled as its list of components. -/
abbrev Path := List String

/-- The read-only filesystem capability consumed by the algorithm:
`exists`, `is_directory` and non-recursive directory listing. -/
structure Filesystem where
  fexists : Path → Bool
  is_directory : Path → Bool
  get_files_non_recursive : Path → List Path

/-- `VisualStudioInstance::ReleaseType` from the source. -/
inductive ReleaseType
  | STABLE
  | PRERELEASE
  | LEGACY
deriving DecidableEq

/-- `VisualStudioInstance`: a raw discovered installation. -/
structure VisualStudioInstance where
  root_path : Path
  version : String
  release_type : ReleaseType
deriving DecidableEq

/-- `major_version()`: the first two characters of the version text
(`version.substr(0, 2)`). -/
def VisualStudioInstance.major_version (v : VisualStudioInstance) : String :=
  v.version.take 2

/-- The tier weight used by the comparator (Stable=3, Prerelease=2, Legacy=1). -/
def get_preference_weight : ReleaseType → Nat
  | .STABLE => 3
  | .PRERELEASE => 2
  | .LEGACY => 1

/-- Strict lexicographic order on character lists, the semantics of
`std::string::operator<`. -/
def chars_lt : List Char → List Char → Bool
  | [], [] => false
  | [], _ :: _ => true
  | _ :: _, [] => false
  | a :: as, b :: bs => if a < b then true else if b < a then false else chars_lt as bs

/-- Strict lexicographic order on strings (`std::string::operator<`). -/
def string_lt (a b : String) : Bool := chars_lt a.data b.data

/-- `VisualStudioInstance::preferred_first_comparator`: compare tier weight;
if the tiers are equal, compare version text, descending. -/
def preferred_first_comparator (left right : VisualStudioInstance) : Bool :=
  if left.release_type ≠ right.release_type then
    decide (get_preference_weight left.release_type > get_preference_weight right.release_type)
  else
    string_lt right.version left.version

/-- One step of a stable insertion sort with the strict comparator `c`:
the inserted element is placed before the first element not strictly
preferred over it, so equal-key elements keep their original order.
Modelled from the spec: `SortedVector` (vcpkg/base/sortedvector.h) is not
part of the sources under review; the spec states the ranking is a stable
sort by `preferred_first_comparator`. -/
def ordered_insert (a : VisualStudioInstance) :
    List VisualStudioInstance → List VisualStudioInstance
  | [] => [a]
  | b :: l => if preferred_first_comparator b a then b :: ordered_insert a l else a :: b :: l

/-- Modelled from the spec: the stable preferred-first sort applied by
`SortedVector{instances, preferred_first_comparator}`. -/
def stable_sort_preferred : List VisualStudioInstance → List VisualStudioInstance
  | [] => []
  | a :: l => ordered_insert a (stable_sort_preferred l)

/-- Abnormal process termination: `Checks::unreachable` (internal-consistency
violation) or `Checks::check_exit` with a formatted message. -/
inductive Abort
  | unreachable
  | check_exit (message : String)
deriving DecidableEq

/-- Modelled from the spec: one `<instance>...</instance>` record as extracted
from the query tool's output by the `StringRange` helpers (which are not part
of the sources under review): an optional `<isPrerelease>` flag and the
required installation path and version text. -/
structure InstanceEntry where
  isPrerelease : Option String
  installationPath : Path
  installationVersion : String
deriving DecidableEq

/-- The environment consumed by the instance enumerator: the filesystem,
the 32-bit program-files root, the outcome of running the installer-query
tool (exit code, raw output, and the extracted instance records), and the
legacy `vs140comntools` environment variable (as a path). -/
structure EnumEnv where
  fs : Filesystem
  program_files_32_bit : Path
  vswhere_exit_code : Int
  vswhere_output : String
  vswhere_instances : List InstanceEntry
  vs140comntools : Option Path

/-- The tier assignment for one extracted record (visualstudio.cpp lines
82-92): flag absent is `LEGACY`, `"0"` is `STABLE`, `"1"` is `PRERELEASE`,
anything else hits `Checks::unreachable`. -/
def parse_release_type : Option String → Except Abort ReleaseType
  | none => Except.ok ReleaseType.LEGACY
  | some s =>
    if s = "0" then Except.ok ReleaseType.STABLE
    else if s = "1" then Except.ok ReleaseType.PRERELEASE
    else Except.error Abort.unreachable

/-- Build one `VisualStudioInstance` from an extracted record. -/
def instance_of_entry (e : InstanceEntry) : Except Abort VisualStudioInstance :=
  match parse_release_type e.isPrerelease with
  | Except.error a => Except.error a
  | Except.ok rt => Except.ok ⟨e.installationPath, e.installationVersion, rt⟩

/-- The extraction loop over all `<instance>` records: the first record whose
flag is out of range aborts the whole enumeration. -/
def instances_of_entries : List InstanceEntry → Except Abort (List VisualStudioInstance)
  | [] => Except.ok []
  | e :: rest =>
    match instance_of_entry e with
    | Except.error a => Except.error a
    | Except.ok i =>
      match instances_of_entries rest with
      | Except.error a => Except.error a
      | Except.ok l => Except.ok (i :: l)

/-- `append_if_has_cl` (visualstudio.cpp lines 103-109): add a Legacy instance
with fixed version `"14.0"` for `path_root` only if `VC/bin/cl.exe` and
`VC/vcvarsall.bat` both exist under it. -/
def append_if_has_cl (fs : Filesystem) (path_root : Path) : List VisualStudioInstance :=
  if fs.fexists (path_root ++ ["VC", "bin", "cl.exe"]) &&
      fs.fexists (path_root ++ ["VC", "vcvarsall.bat"]) then
    [⟨path_root, "14.0", ReleaseType.LEGACY⟩]
  else
    []

/-- The fixed location of the installer-query executable. -/
def vswhere_exe_path (env : EnumEnv) : Path :=
  env.program_files_32_bit ++ ["Microsoft Visual Studio", "Installer", "vswhere.exe"]

/-- `get_visual_studio_instances` (visualstudio.cpp lines 57-126): instances
from the installer-query tool (fatal on non-zero exit code), then the two
candidates derived from the `vs140comntools` environment variable, then the
fixed default install path under the program-files root. -/
def get_visual_studio_instances (env : EnumEnv) : Except Abort (List VisualStudioInstance) :=
  let vswhere_result : Except Abort (List VisualStudioInstance) :=
    if env.fs.fexists (vswhere_exe_path env) then
      if env.vswhere_exit_code = 0 then
        instances_of_entries env.vswhere_instances
      else
        Except.error (Abort.check_exit env.vswhere_output)
    else
      Except.ok []
  match vswhere_result with
  | Except.error a => Except.error a
  | Except.ok vswhere_instances =>
    let vs140_instances :=
      match env.vs140comntools with
      | some common7_tools =>
        append_if_has_cl env.fs common7_tools.dropLast.dropLast ++
          append_if_has_cl env.fs common7_tools.dropLast.dropLast.dropLast
      | none => []
    let program_files_instances :=
      append_if_has_cl env.fs (env.program_files_32_bit ++ ["Microsoft Visual Studio 14.0"])
    Except.ok (vswhere_instances ++ vs140_instances ++ program_files_instances)

/-- `System::CPUArchitecture`. -/
inductive CPUArchitecture
  | X86
  | X64
  | ARM
  | ARM64
deriving DecidableEq

/-- `ToolsetArchOption`: one available environment-setup sub-script. -/
structure ToolsetArchOption where
  name : String
  host_arch : CPUArchitecture
  target_arch : CPUArchitecture
deriving DecidableEq

/-- `Toolset`: a fully resolved compiler environment descriptor, with the
fields in the order of the brace-initializers in visualstudio.cpp. -/
structure Toolset where
  visual_studio_root_path : Path
  dumpbin : Path
  vcvarsall : Path
  vcvarsall_options : List String
  version : String
  supported_architectures : List ToolsetArchOption
deriving DecidableEq

/-- The mutable state threaded through the resolution loop:
`paths_examined`, `found_toolsets` and `excluded_toolsets`. -/
structure ResolveState where
  paths_examined : List Path
  found_toolsets : List Toolset
  excluded_toolsets : List Toolset
deriving DecidableEq

/-- The architecture menu of the modern generation (visualstudio.cpp lines
161-177): eight fixed options, each gated on its sub-script existing in the
`vcvarsall` directory. -/
def supported_architectures_15 (fs : Filesystem) (vcvarsall_dir : Path) :
    List ToolsetArchOption :=
  (if fs.fexists (vcvarsall_dir ++ ["vcvars32.bat"]) then
    [⟨"x86", CPUArchitecture.X86, CPUArchitecture.X86⟩] else []) ++
  (if fs.fexists (vcvarsall_dir ++ ["vcvars64.bat"]) then
    [⟨"amd64", CPUArchitecture.X64, CPUArchitecture.X64⟩] else []) ++
  (if fs.fexists (vcvarsall_dir ++ ["vcvarsx86_amd64.bat"]) then
    [⟨"x86_amd64", CPUArchitecture.X86, CPUArchitecture.X64⟩] else []) ++
  (if fs.fexists (vcvarsall_dir ++ ["vcvarsx86_arm.bat"]) then
    [⟨"x86_arm", CPUArchitecture.X86, CPUArchitecture.ARM⟩] else []) ++
  (if fs.fexists (vcvarsall_dir ++ ["vcvarsx86_arm64.bat"]) then
    [⟨"x86_arm64", CPUArchitecture.X86, CPUArchitecture.ARM64⟩] else []) ++
  (if fs.fexists (vcvarsall_dir ++ ["vcvarsamd64_x86.bat"]) then
    [⟨"amd64_x86", CPUArchitecture.X64, CPUArchitecture.X86⟩] else []) ++
  (if fs.fexists (vcvarsall_dir ++ ["vcvarsamd64_arm.bat"]) then
    [⟨"amd64_arm", CPUArchitecture.X64, CPUArchitecture.ARM⟩] else []) ++
  (if fs.fexists (vcvarsall_dir ++ ["vcvarsamd64_arm64.bat"]) then
    [⟨"amd64_arm64", CPUArchitecture.X64, CPUArchitecture.ARM64⟩] else [])

/-- The architecture menu of the legacy generations (visualstudio.cpp lines
239-251): six fixed options, each gated on its sub-script existing under an
architecture-named subdirectory of the root's `bin` folder. -/
def supported_architectures_legacy (fs : Filesystem) (vs_bin_dir : Path) :
    List ToolsetArchOption :=
  (if fs.fexists (vs_bin_dir ++ ["vcvars32.bat"]) then
    [⟨"x86", CPUArchitecture.X86, CPUArchitecture.X86⟩] else []) ++
  (if fs.fexists (vs_bin_dir ++ ["amd64", "vcvars64.bat"]) then
    [⟨"x64", CPUArchitecture.X64, CPUArchitecture.X64⟩] else []) ++
  (if fs.fexists (vs_bin_dir ++ ["x86_amd64", "vcvarsx86_amd64.bat"]) then
    [⟨"x86_amd64", CPUArchitecture.X86, CPUArchitecture.X64⟩] else []) ++
  (if fs.fexists (vs_bin_dir ++ ["x86_arm", "vcvarsx86_arm.bat"]) then
    [⟨"x86_arm", CPUArchitecture.X86, CPUArchitecture.ARM⟩] else []) ++
  (if fs.fexists (vs_bin_dir ++ ["amd64_x86", "vcvarsamd64_x86.bat"]) then
    [⟨"amd64_x86", CPUArchitecture.X64, CPUArchitecture.X86⟩] else []) ++
  (if fs.fexists (vs_bin_dir ++ ["amd64_arm", "vcvarsamd64_arm.bat"]) then
    [⟨"amd64_arm", CPUArchitecture.X64, CPUArchitecture.ARM⟩] else [])

/-- The filename of a path: its last component. -/
def path_filename (p : Path) : String := p.getLastD ""

/-- Insert a path into a list sorted descending by filename
(`std::sort` with `left.filename() > right.filename()`). -/
def insert_by_filename_desc (a : Path) : List Path → List Path
  | [] => [a]
  | b :: l =>
    if string_lt (path_filename b) (path_filename a) then a :: b :: l
    else b :: insert_by_filename_desc a l

/-- Sort paths descending by filename, so that the latest toolchain version
comes first (visualstudio.cpp lines 186-189). -/
def sort_by_filename_desc : List Path → List Path
  | [] => []
  | a :: l => insert_by_filename_desc a (sort_by_filename_desc l)

/-- The toolchain-version subdirectories of an instance's `MSVC` directory,
kept only if directories, sorted latest-first (visualstudio.cpp lines 180-189). -/
def msvc_sorted_subdirectories (fs : Filesystem) (msvc_path : Path) : List Path :=
  sort_by_filename_desc ((fs.get_files_non_recursive msvc_path).filter fs.is_directory)

/-- The fixed relative location of the compiler-inspection tool inside a
toolchain-version subdirectory. -/
def subdir_dumpbin_path (subdir : Path) : Path :=
  subdir ++ ["bin", "HostX86", "x86", "dumpbin.exe"]

/-- The locale-resource folder checked next to an inspection tool:
`dumpbin_path.parent_path() / "1033"`. -/
def english_language_pack_of (dumpbin_path : Path) : Path :=
  dumpbin_path.dropLast ++ ["1033"]

/-- The scan of the modern generation's toolchain-version subdirectories
(visualstudio.cpp lines 191-223): record each probed inspection-tool path;
at the first subdirectory where the tool exists, either exclude the candidate
(locale folder absent) or emit the `v141` toolset and, when the v140 flag is
set, the `v140` twin; in both cases stop scanning. -/
def scan_msvc_subdirectories (fs : Filesystem) (v140_available : Bool)
    (root_path vcvarsall_bat : Path) (archs : List ToolsetArchOption) :
    List Path → ResolveState → ResolveState
  | [], st => st
  | subdir :: rest, st =>
    let dumpbin_path := subdir_dumpbin_path subdir
    let st1 : ResolveState := { st with paths_examined := st.paths_examined ++ [dumpbin_path] }
    if fs.fexists dumpbin_path then
      let v141_toolset : Toolset := ⟨root_path, dumpbin_path, vcvarsall_bat, [], "v141", archs⟩
      if fs.fexists (english_language_pack_of dumpbin_path) then
        let st2 : ResolveState :=
          { st1 with found_toolsets := st1.found_toolsets ++ [v141_toolset] }
        if v140_available then
          { st2 with
            found_toolsets := st2.found_toolsets ++
              [⟨root_path, dumpbin_path, vcvarsall_bat, ["-vcvars_ver=14.0"], "v140", archs⟩] }
        else st2
      else
        { st1 with excluded_toolsets := st1.excluded_toolsets ++ [v141_toolset] }
    else
      scan_msvc_subdirectories fs v140_available root_path vcvarsall_bat archs rest st1

/-- Processing of one ranked instance (the body of the loop at
visualstudio.cpp lines 147-274).  Returns the updated state and whether the
loop continues; `false` only on the legacy branch's locale-missing `break`. -/
def process_instance (fs : Filesystem) (v140_available : Bool)
    (vs_instance : VisualStudioInstance) (st : ResolveState) : ResolveState × Bool :=
  let major_version := vs_instance.major_version
  if major_version = "15" then
    let vc_dir := vs_instance.root_path ++ ["VC"]
    let vcvarsall_dir := vc_dir ++ ["Auxiliary", "Build"]
    let vcvarsall_bat := vcvarsall_dir ++ ["vcvarsall.bat"]
    let st1 : ResolveState := { st with paths_examined := st.paths_examined ++ [vcvarsall_bat] }
    if fs.fexists vcvarsall_bat then
      let archs := supported_architectures_15 fs vcvarsall_dir
      let subdirs := msvc_sorted_subdirectories fs (vc_dir ++ ["Tools", "MSVC"])
      (scan_msvc_subdirectories fs v140_available vs_instance.root_path vcvarsall_bat archs
        subdirs st1, true)
    else
      (st1, true)
  else if major_version = "14" ∨ major_version = "12" then
    let vcvarsall_bat := vs_instance.root_path ++ ["VC", "vcvarsall.bat"]
    let st1 : ResolveState := { st with paths_examined := st.paths_examined ++ [vcvarsall_bat] }
    if fs.fexists vcvarsall_bat then
      let vs_dumpbin_exe := vs_instance.root_path ++ ["VC", "bin", "dumpbin.exe"]
      let st2 : ResolveState :=
        { st1 with paths_examined := st1.paths_examined ++ [vs_dumpbin_exe] }
      let vs_bin_dir := vcvarsall_bat.dropLast ++ ["bin"]
      let archs := supported_architectures_legacy fs vs_bin_dir
      if fs.fexists vs_dumpbin_exe then
        let toolset : Toolset := ⟨vs_instance.root_path, vs_dumpbin_exe, vcvarsall_bat, [],
          if major_version = "14" then "v140" else "v120", archs⟩
        if fs.fexists (english_language_pack_of vs_dumpbin_exe) then
          ({ st2 with found_toolsets := st2.found_toolsets ++ [toolset] }, true)
        else
          ({ st2 with excluded_toolsets := st2.excluded_toolsets ++ [toolset] }, false)
      else
        (st2, true)
    else
      (st1, true)
  else
    (st, true)

/-- The resolution loop over the ranked instances; a step returning `false`
(the legacy locale-missing `break`) terminates the loop immediately. -/
def run_loop (fs : Filesystem) (v140_available : Bool) :
    List VisualStudioInstance → ResolveState → ResolveState
  | [], st => st
  | vs_instance :: rest, st =>
    match process_instance fs v140_available vs_instance st with
    | (st1, true) => run_loop fs v140_available rest st1
    | (st1, false) => st1

/-- The precomputed flag (visualstudio.cpp lines 143-145): does any ranked
instance have major version tag `"14"`? -/
def v140_is_available (sorted : List VisualStudioInstance) : Bool :=
  sorted.any fun vs_instance => decide (vs_instance.major_version = "14")

/-- The outcome of `find_toolset_instances_preferred_first`: either the found
toolsets, or `Checks::exit_fail` after printing every examined path. -/
inductive FindResult
  | ok (found_toolsets : List Toolset)
  | fail_no_toolsets (paths_examined : List Path)
deriving DecidableEq

/-- `find_toolset_instances_preferred_first` applied to an already enumerated
instance list: rank, precompute the v140 flag, run the resolution loop, and
fail fatally (dumping the examined paths) exactly when nothing was found. -/
def find_toolset_instances_from (fs : Filesystem)
    (instances : List VisualStudioInstance) : FindResult :=
  let sorted := stable_sort_preferred instances
  let st := run_loop fs (v140_is_available sorted) sorted ⟨[], [], []⟩
  if st.found_toolsets.isEmpty then FindResult.fail_no_toolsets st.paths_examined
  else FindResult.ok st.found_toolsets

/-- The full pipeline `find_toolset_instances_preferred_first`
(visualstudio.cpp lines 128-300). -/
def find_toolset_instances_preferred_first (env : EnumEnv) : Except Abort FindResult :=
  (get_visual_studio_instances env).map (find_toolset_instances_from env.fs)

/-- A toolset is complete for a filesystem when its environment-setup script,
its compiler-inspection tool and the locale-resource folder next to the tool
all exist. -/
def found_ok (fs : Filesystem) (t : Toolset) : Prop :=
  fs.fexists t.vcvarsall = true ∧ fs.fexists t.dumpbin = true ∧
    fs.fexists (english_language_pack_of t.dumpbin) = true

/-- An excluded candidate: environment-setup script and inspection tool exist
but the locale-resource folder next to the tool does not. -/
def excluded_missing_pack (fs : Filesystem) (t : Toolset) : Prop :=
  fs.fexists t.vcvarsall = true ∧ fs.fexists t.dumpbin = true ∧
    fs.fexists (english_language_pack_of t.dumpbin) = false

/-- The v141 toolset that example filesystem A yields for `inst_vs2017`. -/
def toolset_vs2017_v141 : Toolset :=
  ⟨["vs2017"], ["vs2017", "VC", "Tools", "MSVC", "14.1", "bin", "HostX86", "x86", "dumpbin.exe"],
   ["vs2017", "VC", "Auxiliary", "Build", "vcvarsall.bat"], [], "v141",
   [⟨"x86", CPUArchitecture.X86, CPUArchitecture.X86⟩]⟩

/-! Concrete example filesystems and instances, used to evaluate the
definitions on closed inputs. -/

/-- Paths present in example filesystem A: one complete modern instance root
and one legacy root missing its locale-resource folder. -/
def fsA_paths : List Path :=
  [["vs2017", "VC", "Auxiliary", "Build", "vcvarsall.bat"],
   ["vs2017", "VC", "Auxiliary", "Build", "vcvars32.bat"],
   ["vs2017", "VC", "Tools", "MSVC", "14.1", "bin", "HostX86", "x86", "dumpbin.exe"],
   ["vs2017", "VC", "Tools", "MSVC", "14.1", "bin", "HostX86", "x86", "1033"],
   ["vs2015b", "VC", "vcvarsall.bat"],
   ["vs2015b", "VC", "bin", "dumpbin.exe"]]

/-- Example filesystem A. -/
def fsA : Filesystem where
  fexists := fun p => decide (p ∈ fsA_paths)
  is_directory := fun p => decide (p = ["vs2017", "VC", "Tools", "MSVC", "14.1"])
  get_files_non_recursive := fun p =>
    if p = ["vs2017", "VC", "Tools", "MSVC"] then [["vs2017", "VC", "Tools", "MSVC", "14.1"]]
    else []

/-- Paths present in example filesystem B: a modern root whose latest
toolchain-version subdirectory has the inspection tool but no locale folder,
while an older subdirectory is complete. -/
def fsB_paths : List Path :=
  [["m15", "VC", "Auxiliary", "Build", "vcvarsall.bat"],
   ["m15", "VC", "Tools", "MSVC", "14.2", "bin", "HostX86", "x86", "dumpbin.exe"],
   ["m15", "VC", "Tools", "MSVC", "14.1", "bin", "HostX86", "x86", "dumpbin.exe"],
   ["m15", "VC", "Tools", "MSVC", "14.1", "bin", "HostX86", "x86", "1033"]]

/-- Example filesystem B. -/
def fsB : Filesystem where
  fexists := fun p => decide (p ∈ fsB_paths)
  is_directory := fun p =>
    decide (p = ["m15", "VC", "Tools", "MSVC", "14.2"] ∨ p = ["m15", "VC", "Tools", "MSVC", "14.1"])
  get_files_non_recursive := fun p =>
    if p = ["m15", "VC", "Tools", "MSVC"] then
      [["m15", "VC", "Tools", "MSVC", "14.1"], ["m15", "VC", "Tools", "MSVC", "14.2"]]
    else []

/-- An empty example filesystem. -/
def fsEmpty : Filesystem where
  fexists := fun _ => false
  is_directory := fun _ => false
  get_files_non_recursive := fun _ => []

/-- A complete modern instance rooted in example filesystem A. -/
def inst_vs2017 : VisualStudioInstance := ⟨["vs2017"], "15.9", ReleaseType.STABLE⟩

/-- A legacy instance rooted in example filesystem A, missing its locale folder. -/
def inst_vs2015b : VisualStudioInstance := ⟨["vs2015b"], "14.0", ReleaseType.LEGACY⟩

/-- A modern instance rooted in example filesystem B. -/
def inst_m15 : VisualStudioInstance := ⟨["m15"], "15.8", ReleaseType.STABLE⟩

/-- An instance whose major version tag is none of "15", "14", "12". -/
def inst_other : VisualStudioInstance := ⟨["o"], "11.0", ReleaseType.LEGACY⟩

/-- Paths present in example filesystem C: only the installer-query executable. -/
def fsC_paths : List Path :=
  [["pf", "Microsoft Visual Studio", "Installer", "vswhere.exe"]]

/-- Example filesystem C. -/
def fsC : Filesystem where
  fexists := fun p => decide (p ∈ fsC_paths)
  is_directory := fun _ => false
  get_files_non_recursive := fun _ => []

/-- An enumerator environment whose query tool emits one record with an
out-of-range prerelease flag. -/
def envC6 : EnumEnv where
  fs := fsC
  program_files_32_bit := ["pf"]
  vswhere_exit_code := 0
  vswhere_output := ""
  vswhere_instances := [⟨some "2", ["vsroot"], "15.9"⟩]
  vs140comntools := none

/-- An enumerator environment whose query tool fails with a non-zero exit code. -/
def envC8 : EnumEnv :=
  { envC6 with vswhere_exit_code := 1, vswhere_output := "boom", vswhere_instances := [] }

/-- Paths present in example filesystem D: a legacy suite under root `d`. -/
def fsD_paths : List Path :=
  [["d", "VC", "bin", "cl.exe"], ["d", "VC", "vcvarsall.bat"]]

/-- Example filesystem D. -/
def fsD : Filesystem where
  fexists := fun p => decide (p ∈ fsD_paths)
  is_directory := fun _ => false
  get_files_non_recursive := fun _ => []

/-- An enumerator environment with the legacy environment variable set and no
query tool. -/
def envC9 : EnumEnv where
  fs := fsD
  program_files_32_bit := ["pf"]
  vswhere_exit_code := 0
  vswhere_output := ""
  vswhere_instances := []
  vs140comntools := some ["d", "Common7", "Tools"]

/-! Helper lemmas about paths. -/

theorem dropLast_append_two (xs : List String) (a b : String) :
    (xs ++ [a, b]).dropLast = xs ++ [a] := by
  rw [show xs ++ [a, b] = (xs ++ [a]) ++ [b] by simp, List.dropLast_concat]

theorem dropLast_append_three (xs : List String) (a b c : String) :
    (xs ++ [a, b, c]).dropLast = xs ++ [a, b] := by
  rw [show xs ++ [a, b, c] = (xs ++ [a, b]) ++ [c] by simp, List.dropLast_concat]

theorem dropLast_append_four (xs : List String) (a b c d : String) :
    (xs ++ [a, b, c, d]).dropLast = xs ++ [a, b, c] := by
  rw [show xs ++ [a, b, c, d] = (xs ++ [a, b, c]) ++ [d] by simp, List.dropLast_concat]

theorem english_pack_legacy (root : Path) :
    english_language_pack_of (root ++ ["VC", "bin", "dumpbin.exe"]) =
      root ++ ["VC", "bin", "1033"] := by
  simp [english_language_pack_of, dropLast_append_three]

theorem english_pack_modern (subdir : Path) :
    english_language_pack_of (subdir_dumpbin_path subdir) =
      subdir ++ ["bin", "HostX86", "x86", "1033"] := by
  simp [english_language_pack_of, subdir_dumpbin_path, dropLast_append_four]

/-! Characterizations of `process_instance` on the legacy branch. -/

/-- On a legacy-generation instance whose environment-setup script and
inspection tool exist but whose locale folder is absent, `process_instance`
records the candidate as excluded and signals loop termination. -/
theorem process_instance_legacy_excluded (fs : Filesystem) (v140_available : Bool)
    (inst : VisualStudioInstance) (st : ResolveState)
    (hmv : inst.major_version = "14" ∨ inst.major_version = "12")
    (hvcv : fs.fexists (inst.root_path ++ ["VC", "vcvarsall.bat"]) = true)
    (hdump : fs.fexists (inst.root_path ++ ["VC", "bin", "dumpbin.exe"]) = true)
    (hpack : fs.fexists (inst.root_path ++ ["VC", "bin", "1033"]) = false) :
    process_instance fs v140_available inst st =
      ({ st with
          paths_examined := st.paths_examined ++
            [inst.root_path ++ ["VC", "vcvarsall.bat"],
             inst.root_path ++ ["VC", "bin", "dumpbin.exe"]],
          excluded_toolsets := st.excluded_toolsets ++
            [⟨inst.root_path, inst.root_path ++ ["VC", "bin", "dumpbin.exe"],
              inst.root_path ++ ["VC", "vcvarsall.bat"], [],
              if inst.major_version = "14" then "v140" else "v120",
              supported_architectures_legacy fs (inst.root_path ++ ["VC", "bin"])⟩] }, false) := by
  have h15 : ¬ inst.major_version = "15" := by
    rcases hmv with h | h <;> simp [h]
  rcases hmv with h | h <;>
    simp [process_instance, h, h15, hvcv, hdump, english_pack_legacy, hpack,
      dropLast_append_two]

/-- **C1**: a ranked legacy-generation instance (major tag "14" or "12") with
its environment-setup script and inspection tool present but its locale
folder absent is appended to `excluded`, and the whole resolution loop
terminates immediately: the final state does not depend on the instances
ranked after it, and exactly one `excluded` entry is added from that point
on, with `found` and `paths_examined` receiving nothing further. -/
theorem C1_legacy_locale_missing_global_early_exit (fs : Filesystem)
    (v140_available : Bool) (inst : VisualStudioInstance)
    (rest : List VisualStudioInstance) (st : ResolveState)
    (hmv : inst.major_version = "14" ∨ inst.major_version = "12")
    (hvcv : fs.fexists (inst.root_path ++ ["VC", "vcvarsall.bat"]) = true)
    (hdump : fs.fexists (inst.root_path ++ ["VC", "bin", "dumpbin.exe"]) = true)
    (hpack : fs.fexists (inst.root_path ++ ["VC", "bin", "1033"]) = false) :
    run_loop fs v140_available (inst :: rest) st =
      { st with
        paths_examined := st.paths_examined ++
          [inst.root_path ++ ["VC", "vcvarsall.bat"],
           inst.root_path ++ ["VC", "bin", "dumpbin.exe"]],
        excluded_toolsets := st.excluded_toolsets ++
          [⟨inst.root_path, inst.root_path ++ ["VC", "bin", "dumpbin.exe"],
            inst.root_path ++ ["VC", "vcvarsall.bat"], [],
            if inst.major_version = "14" then "v140" else "v120",
            supported_architectures_legacy fs (inst.root_path ++ ["VC", "bin"])⟩] } := by
  rw [run_loop, process_instance_legacy_excluded fs v140_available inst st hmv hvcv hdump hpack]

/-- Witness for C1: in example filesystem A the legacy instance with the
missing locale folder cuts the loop short, so the complete modern instance
ranked after it is never resolved. -/
theorem C1_witness :
    run_loop fsA true [inst_vs2015b, inst_vs2017] ⟨[], [], []⟩ =
      { paths_examined := [inst_vs2015b.root_path ++ ["VC", "vcvarsall.bat"],
          inst_vs2015b.root_path ++ ["VC", "bin", "dumpbin.exe"]],
        found_toolsets := [],
        excluded_toolsets :=
          [⟨inst_vs2015b.root_path, inst_vs2015b.root_path ++ ["VC", "bin", "dumpbin.exe"],
            inst_vs2015b.root_path ++ ["VC", "vcvarsall.bat"], [],
            if inst_vs2015b.major_version = "14" then "v140" else "v120",
            supported_architectures_legacy fsA (inst_vs2015b.root_path ++ ["VC", "bin"])⟩] } := by
  exact C1_legacy_locale_missing_global_early_exit fsA true inst_vs2015b [inst_vs2017]
    ⟨[], [], []⟩ (Or.inl (by decide)) (by decide) (by decide) (by decide)

/-- **C10**: a ranked instance whose major version tag is none of "15", "14"
or "12" contributes nothing: the loop state is unchanged and processing
continues with the next instance. -/
theorem C10_other_major_version_no_effect (fs : Filesystem) (v140_available : Bool)
    (inst : VisualStudioInstance) (rest : List VisualStudioInstance) (st : ResolveState)
    (h15 : inst.major_version ≠ "15") (h14 : inst.major_version ≠ "14")
    (h12 : inst.major_version ≠ "12") :
    run_loop fs v140_available (inst :: rest) st = run_loop fs v140_available rest st := by
  have hstep : process_instance fs v140_available inst st = (st, true) := by
    simp [process_instance, h15, h14, h12]
  rw [run_loop, hstep]

/-- Witness for C10: an instance with version text "11.0" leaves the state
untouched. -/
theorem C10_witness :
    run_loop fsA true [inst_other] ⟨[], [], []⟩ = run_loop fsA true [] ⟨[], [], []⟩ := by
  exact C10_other_major_version_no_effect fsA true inst_other [] ⟨[], [], []⟩
    (by decide) (by decide) (by decide)

/-! Characterizations of the modern-generation subdirectory scan. -/

/-- Subdirectories without the inspection tool only contribute probed paths. -/
theorem scan_msvc_skip_all (fs : Filesystem) (v140_available : Bool)
    (root_path vcvarsall_bat : Path) (archs : List ToolsetArchOption)
    (pre rest : List Path) (st : ResolveState)
    (hpre : ∀ d ∈ pre, fs.fexists (subdir_dumpbin_path d) = false) :
    scan_msvc_subdirectories fs v140_available root_path vcvarsall_bat archs (pre ++ rest) st =
      scan_msvc_subdirectories fs v140_available root_path vcvarsall_bat archs rest
        { st with paths_examined := st.paths_examined ++ pre.map subdir_dumpbin_path } := by
  induction pre generalizing st with
  | nil => simp
  | cons d pre ih =>
    have hd : fs.fexists (subdir_dumpbin_path d) = false := hpre d (List.mem_cons_self d pre)
    have hrest : ∀ x ∈ pre, fs.fexists (subdir_dumpbin_path x) = false := fun x hx =>
      hpre x (List.mem_cons_of_mem d hx)
    rw [List.cons_append]
    simp only [scan_msvc_subdirectories, hd]
    rw [ih _ hrest]
    simp

/-- At the first subdirectory with the inspection tool but no locale folder,
the candidate goes to `excluded` and the scan stops: later subdirectories are
not examined. -/
theorem scan_msvc_hit_excluded (fs : Filesystem) (v140_available : Bool)
    (root_path vcvarsall_bat : Path) (archs : List ToolsetArchOption)
    (bad : Path) (post : List Path) (st : ResolveState)
    (hbad : fs.fexists (subdir_dumpbin_path bad) = true)
    (hpack : fs.fexists (english_language_pack_of (subdir_dumpbin_path bad)) = false) :
    scan_msvc_subdirectories fs v140_available root_path vcvarsall_bat archs (bad :: post) st =
      { st with
        paths_examined := st.paths_examined ++ [subdir_dumpbin_path bad],
        excluded_toolsets := st.excluded_toolsets ++
          [⟨root_path, subdir_dumpbin_path bad, vcvarsall_bat, [], "v141", archs⟩] } := by
  simp only [scan_msvc_subdirectories, hbad, hpack]
  simp

/-- At the first subdirectory with the inspection tool and the locale folder,
the `v141` toolset is found (with the `v140` twin exactly when the flag is
set) and the scan stops. -/
theorem scan_msvc_hit_found (fs : Filesystem) (v140_available : Bool)
    (root_path vcvarsall_bat : Path) (archs : List ToolsetArchOption)
    (good : Path) (post : List Path) (st : ResolveState)
    (hgood : fs.fexists (subdir_dumpbin_path good) = true)
    (hpack : fs.fexists (english_language_pack_of (subdir_dumpbin_path good)) = true) :
    scan_msvc_subdirectories fs v140_available root_path vcvarsall_bat archs (good :: post) st =
      { st with
        paths_examined := st.paths_examined ++ [subdir_dumpbin_path good],
        found_toolsets := st.found_toolsets ++
          [⟨root_path, subdir_dumpbin_path good, vcvarsall_bat, [], "v141", archs⟩] ++
          (if v140_available then
            [⟨root_path, subdir_dumpbin_path good, vcvarsall_bat, ["-vcvars_ver=14.0"], "v140",
              archs⟩]
          else []) } := by
  cases v140_available <;>
    · simp only [scan_msvc_subdirectories, hgood, hpack]
      simp

/-- On a modern-generation instance whose environment-setup script exists,
processing records the probed script and delegates to the subdirectory scan;
the loop always continues afterwards. -/
theorem process_instance_modern (fs : Filesystem) (v140_available : Bool)
    (inst : VisualStudioInstance) (st : ResolveState)
    (h15 : inst.major_version = "15")
    (hvcv : fs.fexists (inst.root_path ++ ["VC", "Auxiliary", "Build", "vcvarsall.bat"]) = true) :
    process_instance fs v140_available inst st =
      (scan_msvc_subdirectories fs v140_available inst.root_path
        (inst.root_path ++ ["VC", "Auxiliary", "Build", "vcvarsall.bat"])
        (supported_architectures_15 fs (inst.root_path ++ ["VC", "Auxiliary", "Build"]))
        (msvc_sorted_subdirectories fs (inst.root_path ++ ["VC", "Tools", "MSVC"]))
        { st with
          paths_examined := st.paths_examined ++
            [inst.root_path ++ ["VC", "Auxiliary", "Build", "vcvarsall.bat"]] }, true) := by
  simp [process_instance, h15, hvcv]

/-- **C3**: on a modern-generation instance, when the first toolchain-version
subdirectory (in descending name order) containing the inspection tool lacks
the locale-resource folder, the candidate is recorded in `excluded`, the
subdirectories after it are never examined, and the loop continues with the
next ranked instance. -/
theorem C3_modern_locale_missing_per_instance_skip (fs : Filesystem)
    (v140_available : Bool) (inst : VisualStudioInstance)
    (rest : List VisualStudioInstance) (st : ResolveState)
    (pre : List Path) (bad : Path) (post : List Path)
    (h15 : inst.major_version = "15")
    (hvcv : fs.fexists (inst.root_path ++ ["VC", "Auxiliary", "Build", "vcvarsall.bat"]) = true)
    (hdecomp : msvc_sorted_subdirectories fs (inst.root_path ++ ["VC", "Tools", "MSVC"]) =
      pre ++ bad :: post)
    (hpre : ∀ d ∈ pre, fs.fexists (subdir_dumpbin_path d) = false)
    (hbad : fs.fexists (subdir_dumpbin_path bad) = true)
    (hpack : fs.fexists (english_language_pack_of (subdir_dumpbin_path bad)) = false) :
    run_loop fs v140_available (inst :: rest) st =
      run_loop fs v140_available rest
        { st with
          paths_examined := st.paths_examined ++
            [inst.root_path ++ ["VC", "Auxiliary", "Build", "vcvarsall.bat"]] ++
            (pre ++ [bad]).map subdir_dumpbin_path,
          excluded_toolsets := st.excluded_toolsets ++
            [⟨inst.root_path, subdir_dumpbin_path bad,
              inst.root_path ++ ["VC", "Auxiliary", "Build", "vcvarsall.bat"], [], "v141",
              supported_architectures_15 fs (inst.root_path ++ ["VC", "Auxiliary", "Build"])⟩] } := by
  rw [run_loop, process_instance_modern fs v140_available inst st h15 hvcv, hdecomp,
    scan_msvc_skip_all fs v140_available _ _ _ pre (bad :: post) _ hpre,
    scan_msvc_hit_excluded fs v140_available _ _ _ bad post _ hbad hpack]
  simp

/-- Witness for C3: in example filesystem B the latest toolchain version
"14.2" has the tool but no locale folder; the candidate is excluded, the
complete "14.1" subdirectory is never examined, and the loop goes on. -/
theorem C3_witness :
    run_loop fsB false [inst_m15] ⟨[], [], []⟩ =
      run_loop fsB false []
        { paths_examined := [["m15", "VC", "Auxiliary", "Build", "vcvarsall.bat"]] ++
            ([] ++ [["m15", "VC", "Tools", "MSVC", "14.2"]]).map subdir_dumpbin_path,
          found_toolsets := [],
          excluded_toolsets :=
            [⟨["m15"], subdir_dumpbin_path ["m15", "VC", "Tools", "MSVC", "14.2"],
              ["m15", "VC", "Auxiliary", "Build", "vcvarsall.bat"], [], "v141",
              supported_architectures_15 fsB ["m15", "VC", "Auxiliary", "Build"]⟩] } := by
  exact C3_modern_locale_missing_per_instance_skip fsB false inst_m15 [] ⟨[], [], []⟩
    [] ["m15", "VC", "Tools", "MSVC", "14.2"] [["m15", "VC", "Tools", "MSVC", "14.1"]]
    (by decide) (by decide) (by decide) (by simp) (by decide) (by decide)

/-- **C7**: when the resolution loop ends with an empty `found` list the
function fails fatally, reporting exactly the accumulated `paths_examined`;
when `found` is non-empty it returns the found list, so the empty-`found`
case is the sole fatal outcome of the resolver. -/
theorem C7_empty_found_is_fatal (fs : Filesystem) (instances : List VisualStudioInstance) :
    ((run_loop fs (v140_is_available (stable_sort_preferred instances))
        (stable_sort_preferred instances) ⟨[], [], []⟩).found_toolsets = [] →
      find_toolset_instances_from fs instances =
        FindResult.fail_no_toolsets
          (run_loop fs (v140_is_available (stable_sort_preferred instances))
            (stable_sort_preferred instances) ⟨[], [], []⟩).paths_examined) ∧
    ((run_loop fs (v140_is_available (stable_sort_preferred instances))
        (stable_sort_preferred instances) ⟨[], [], []⟩).found_toolsets ≠ [] →
      find_toolset_instances_from fs instances =
        FindResult.ok
          (run_loop fs (v140_is_available (stable_sort_preferred instances))
            (stable_sort_preferred instances) ⟨[], [], []⟩).found_toolsets) := by
  constructor <;> intro h <;>
    simp [find_toolset_instances_from, List.isEmpty_iff, h]

/-- Witness for C7: no instances at all ends in the fatal no-toolset outcome
with an empty examined-path dump. -/
theorem C7_witness :
    find_toolset_instances_from fsEmpty [] = FindResult.fail_no_toolsets [] := by
  exact (C7_empty_found_is_fatal fsEmpty []).1 rfl

/-! The completeness invariant of the resolution loop (C2). -/

/-- The subdirectory scan preserves the completeness invariant of `found`
and the missing-locale invariant of `excluded`. -/
theorem scan_msvc_invariant (fs : Filesystem) (v140_available : Bool)
    (root_path vcvarsall_bat : Path) (archs : List ToolsetArchOption)
    (subdirs : List Path) (st : ResolveState)
    (hvcv : fs.fexists vcvarsall_bat = true)
    (hfound : ∀ t ∈ st.found_toolsets, found_ok fs t)
    (hexcl : ∀ t ∈ st.excluded_toolsets, excluded_missing_pack fs t) :
    (∀ t ∈ (scan_msvc_subdirectories fs v140_available root_path vcvarsall_bat archs subdirs
        st).found_toolsets, found_ok fs t) ∧
    (∀ t ∈ (scan_msvc_subdirectories fs v140_available root_path vcvarsall_bat archs subdirs
        st).excluded_toolsets, excluded_missing_pack fs t) := by
  induction subdirs generalizing st with
  | nil => exact ⟨hfound, hexcl⟩
  | cons d rest ih =>
    by_cases hd : fs.fexists (subdir_dumpbin_path d) = true
    · by_cases hp : fs.fexists (english_language_pack_of (subdir_dumpbin_path d)) = true
      · rw [scan_msvc_hit_found fs v140_available root_path vcvarsall_bat archs d rest st hd hp]
        constructor
        · intro t ht
          simp only [List.mem_append] at ht
          rcases ht with (ht | ht) | ht
          · exact hfound t ht
          · rw [List.mem_singleton] at ht
            subst ht
            exact ⟨hvcv, hd, hp⟩
          · rcases v140_available
            · simp at ht
            · rw [if_pos rfl, List.mem_singleton] at ht
              subst ht
              exact ⟨hvcv, hd, hp⟩
        · exact hexcl
      · have hp' : fs.fexists (english_language_pack_of (subdir_dumpbin_path d)) = false := by
          simpa using hp
        rw [scan_msvc_hit_excluded fs v140_available root_path vcvarsall_bat archs d rest st
          hd hp']
        refine ⟨hfound, ?_⟩
        intro t ht
        simp only [List.mem_append] at ht
        rcases ht with ht | ht
        · exact hexcl t ht
        · rw [List.mem_singleton] at ht
          subst ht
          exact ⟨hvcv, hd, hp'⟩
    · have hd' : fs.fexists (subdir_dumpbin_path d) = false := by simpa using hd
      rw [show d :: rest = [d] ++ rest from rfl,
        scan_msvc_skip_all fs v140_available root_path vcvarsall_bat archs [d] rest st
          (by intro x hx; rw [List.mem_singleton] at hx; subst hx; exact hd')]
      exact ih _ hfound hexcl

/-- Processing one instance preserves the completeness invariant of `found`
and the missing-locale invariant of `excluded`. -/
theorem process_instance_invariant (fs : Filesystem) (v140_available : Bool)
    (inst : VisualStudioInstance) (st : ResolveState)
    (hfound : ∀ t ∈ st.found_toolsets, found_ok fs t)
    (hexcl : ∀ t ∈ st.excluded_toolsets, excluded_missing_pack fs t) :
    (∀ t ∈ (process_instance fs v140_available inst st).1.found_toolsets, found_ok fs t) ∧
    (∀ t ∈ (process_instance fs v140_available inst st).1.excluded_toolsets,
      excluded_missing_pack fs t) := by
  by_cases h15 : inst.major_version = "15"
  · by_cases hv :
        fs.fexists (inst.root_path ++ ["VC", "Auxiliary", "Build", "vcvarsall.bat"]) = true
    · rw [process_instance_modern fs v140_available inst st h15 hv]
      exact scan_msvc_invariant fs v140_available inst.root_path _ _ _ _ hv hfound hexcl
    · have hv' :
          fs.fexists (inst.root_path ++ ["VC", "Auxiliary", "Build", "vcvarsall.bat"]) = false :=
        by simpa using hv
      constructor <;> · simp [process_instance, h15, hv']; assumption
  · by_cases hl : inst.major_version = "14" ∨ inst.major_version = "12"
    · by_cases hvcv : fs.fexists (inst.root_path ++ ["VC", "vcvarsall.bat"]) = true
      · by_cases hdump : fs.fexists (inst.root_path ++ ["VC", "bin", "dumpbin.exe"]) = true
        · by_cases hpack :
              fs.fexists (english_language_pack_of
                (inst.root_path ++ ["VC", "bin", "dumpbin.exe"])) = true
          · constructor <;>
              · intro t ht
                simp [process_instance, h15, hl, hvcv, hdump, hpack] at ht
                first
                | (rcases ht with ht | rfl
                   · exact hfound t ht
                   · exact ⟨hvcv, hdump, hpack⟩)
                | exact hexcl t ht
          · have hpack' :
                fs.fexists (english_language_pack_of
                  (inst.root_path ++ ["VC", "bin", "dumpbin.exe"])) = false := by
              simpa using hpack
            constructor <;>
              · intro t ht
                simp [process_instance, h15, hl, hvcv, hdump, hpack'] at ht
                first
                | (rcases ht with ht | rfl
                   · exact hexcl t ht
                   · exact ⟨hvcv, hdump, hpack'⟩)
                | exact hfound t ht
        · have hdump' : fs.fexists (inst.root_path ++ ["VC", "bin", "dumpbin.exe"]) = false := by
            simpa using hdump
          constructor <;> · simp [process_instance, h15, hl, hvcv, hdump']; assumption
      · have hvcv' : fs.fexists (inst.root_path ++ ["VC", "vcvarsall.bat"]) = false := by
          simpa using hvcv
        constructor <;> · simp [process_instance, h15, hl, hvcv']; assumption
    · constructor <;> · simp [process_instance, h15, hl]; assumption

/-- The whole resolution loop preserves the completeness and missing-locale
invariants. -/
theorem run_loop_invariant (fs : Filesystem) (v140_available : Bool)
    (instances : List VisualStudioInstance) (st : ResolveState)
    (hfound : ∀ t ∈ st.found_toolsets, found_ok fs t)
    (hexcl : ∀ t ∈ st.excluded_toolsets, excluded_missing_pack fs t) :
    (∀ t ∈ (run_loop fs v140_available instances st).found_toolsets, found_ok fs t) ∧
    (∀ t ∈ (run_loop fs v140_available instances st).excluded_toolsets,
      excluded_missing_pack fs t) := by
  induction instances generalizing st with
  | nil => exact ⟨hfound, hexcl⟩
  | cons i rest ih =>
    have hstep := process_instance_invariant fs v140_available i st hfound hexcl
    rw [run_loop]
    rcases hp : process_instance fs v140_available i st with ⟨st1, b⟩
    rw [hp] at hstep
    cases b
    · exact hstep
    · exact ih st1 hstep.1 hstep.2

/-- **C2**: every toolset in `found` has an existing environment-setup
script, an existing compiler-inspection tool and an existing locale-resource
folder; an otherwise complete candidate whose locale-resource folder is
absent is always routed to `excluded` (whose members all lack the folder),
never to `found`. -/
theorem C2_found_complete_excluded_incomplete (fs : Filesystem) (v140_available : Bool)
    (instances : List VisualStudioInstance) :
    (∀ t ∈ (run_loop fs v140_available instances ⟨[], [], []⟩).found_toolsets,
        fs.fexists t.vcvarsall = true ∧ fs.fexists t.dumpbin = true ∧
          fs.fexists (english_language_pack_of t.dumpbin) = true) ∧
    (∀ t ∈ (run_loop fs v140_available instances ⟨[], [], []⟩).excluded_toolsets,
        fs.fexists t.vcvarsall = true ∧ fs.fexists t.dumpbin = true ∧
          fs.fexists (english_language_pack_of t.dumpbin) = false) := by
  exact run_loop_invariant fs v140_available instances ⟨[], [], []⟩
    (by intro t ht; simp at ht) (by intro t ht; simp at ht)

/-- Witness for C2: the toolset found for the complete modern instance of
example filesystem A has all three required paths present. -/
theorem C2_witness :
    fsA.fexists toolset_vs2017_v141.vcvarsall = true ∧
    fsA.fexists toolset_vs2017_v141.dumpbin = true ∧
    fsA.fexists (english_language_pack_of toolset_vs2017_v141.dumpbin) = true := by
  exact (C2_found_complete_excluded_incomplete fsA false [inst_vs2017]).1
    toolset_vs2017_v141 (by decide)

/-! The ranked list is a permutation of the discovered instances. -/

theorem ordered_insert_perm (a : VisualStudioInstance) (l : List VisualStudioInstance) :
    (ordered_insert a l).Perm (a :: l) := by
  induction l with
  | nil => exact List.Perm.refl _
  | cons b l ih =>
    by_cases h : preferred_first_comparator b a = true
    · simp only [ordered_insert, h, if_true]
      exact (ih.cons b).trans (List.Perm.swap a b l)
    · have h' : preferred_first_comparator b a = false := by simpa using h
      simp [ordered_insert, h']

theorem stable_sort_perm (l : List VisualStudioInstance) :
    (stable_sort_preferred l).Perm l := by
  induction l with
  | nil => exact List.Perm.refl _
  | cons a l ih => exact (ordered_insert_perm a (stable_sort_preferred l)).trans (ih.cons a)

/-- The precomputed v140 flag over the ranked list holds exactly when some
discovered instance has major version tag "14". -/
theorem v140_flag_iff (instances : List VisualStudioInstance) :
    v140_is_available (stable_sort_preferred instances) = true ↔
      ∃ i ∈ instances, i.major_version = "14" := by
  unfold v140_is_available
  rw [List.any_eq_true]
  constructor
  · rintro ⟨i, hi, hp⟩
    exact ⟨i, (stable_sort_perm instances).mem_iff.mp hi, of_decide_eq_true hp⟩
  · rintro ⟨i, hi, hp⟩
    exact ⟨i, (stable_sort_perm instances).mem_iff.mpr hi, decide_eq_true hp⟩

/-- **C5**: when a modern-generation instance resolves successfully, the
`v141` toolset is emitted, immediately followed by a `v140` twin — same root
path, same inspection-tool path, same environment-script path, exactly one
extra environment-script argument — if and only if some discovered instance
has major version tag "14"; otherwise only the `v141` toolset is emitted. -/
theorem C5_v140_twin_iff (fs : Filesystem) (instances : List VisualStudioInstance)
    (inst : VisualStudioInstance) (rest : List VisualStudioInstance) (st : ResolveState)
    (pre : List Path) (good : Path) (post : List Path)
    (h15 : inst.major_version = "15")
    (hvcv : fs.fexists (inst.root_path ++ ["VC", "Auxiliary", "Build", "vcvarsall.bat"]) = true)
    (hdecomp : msvc_sorted_subdirectories fs (inst.root_path ++ ["VC", "Tools", "MSVC"]) =
      pre ++ good :: post)
    (hpre : ∀ d ∈ pre, fs.fexists (subdir_dumpbin_path d) = false)
    (hgood : fs.fexists (subdir_dumpbin_path good) = true)
    (hpack : fs.fexists (english_language_pack_of (subdir_dumpbin_path good)) = true) :
    run_loop fs (v140_is_available (stable_sort_preferred instances)) (inst :: rest) st =
      run_loop fs (v140_is_available (stable_sort_preferred instances)) rest
        { st with
          paths_examined := st.paths_examined ++
            [inst.root_path ++ ["VC", "Auxiliary", "Build", "vcvarsall.bat"]] ++
            (pre ++ [good]).map subdir_dumpbin_path,
          found_toolsets := st.found_toolsets ++
            [⟨inst.root_path, subdir_dumpbin_path good,
              inst.root_path ++ ["VC", "Auxiliary", "Build", "vcvarsall.bat"], [], "v141",
              supported_architectures_15 fs (inst.root_path ++ ["VC", "Auxiliary", "Build"])⟩] ++
            (if ∃ i ∈ instances, i.major_version = "14" then
              [⟨inst.root_path, subdir_dumpbin_path good,
                inst.root_path ++ ["VC", "Auxiliary", "Build", "vcvarsall.bat"],
                ["-vcvars_ver=14.0"], "v140",
                supported_architectures_15 fs (inst.root_path ++ ["VC", "Auxiliary", "Build"])⟩]
            else []) } := by
  rw [run_loop,
    process_instance_modern fs (v140_is_available (stable_sort_preferred instances)) inst st
      h15 hvcv,
    hdecomp,
    scan_msvc_skip_all fs (v140_is_available (stable_sort_preferred instances)) inst.root_path
      (inst.root_path ++ ["VC", "Auxiliary", "Build", "vcvarsall.bat"])
      (supported_architectures_15 fs (inst.root_path ++ ["VC", "Auxiliary", "Build"]))
      pre (good :: post) _ hpre,
    scan_msvc_hit_found fs (v140_is_available (stable_sort_preferred instances)) inst.root_path
      (inst.root_path ++ ["VC", "Auxiliary", "Build", "vcvarsall.bat"])
      (supported_architectures_15 fs (inst.root_path ++ ["VC", "Auxiliary", "Build"]))
      good post _ hgood hpack]
  by_cases hex : ∃ i ∈ instances, i.major_version = "14"
  · have hflag : v140_is_available (stable_sort_preferred instances) = true :=
      (v140_flag_iff instances).mpr hex
    rw [hflag]
    simp [hex]
  · have hflag : v140_is_available (stable_sort_preferred instances) = false := by
      rcases hb : v140_is_available (stable_sort_preferred instances)
      · rfl
      · exact absurd ((v140_flag_iff instances).mp hb) hex
    rw [hflag]
    simp [hex]

/-- Witness for C5: with a legacy "14" instance present among the discovered
instances, the modern instance of example filesystem A yields the `v141`
toolset followed by its `v140` twin. -/
theorem C5_witness :
    run_loop fsA
        (v140_is_available (stable_sort_preferred [inst_vs2017, inst_vs2015b]))
        [inst_vs2017] ⟨[], [], []⟩ =
      run_loop fsA
        (v140_is_available (stable_sort_preferred [inst_vs2017, inst_vs2015b])) []
        { paths_examined :=
            [inst_vs2017.root_path ++ ["VC", "Auxiliary", "Build", "vcvarsall.bat"]] ++
            ([] ++ [["vs2017", "VC", "Tools", "MSVC", "14.1"]]).map subdir_dumpbin_path,
          found_toolsets :=
            [⟨inst_vs2017.root_path, subdir_dumpbin_path ["vs2017", "VC", "Tools", "MSVC", "14.1"],
              inst_vs2017.root_path ++ ["VC", "Auxiliary", "Build", "vcvarsall.bat"], [], "v141",
              supported_architectures_15 fsA
                (inst_vs2017.root_path ++ ["VC", "Auxiliary", "Build"])⟩] ++
            (if ∃ i ∈ [inst_vs2017, inst_vs2015b], i.major_version = "14" then
              [⟨inst_vs2017.root_path,
                subdir_dumpbin_path ["vs2017", "VC", "Tools", "MSVC", "14.1"],
                inst_vs2017.root_path ++ ["VC", "Auxiliary", "Build", "vcvarsall.bat"],
                ["-vcvars_ver=14.0"], "v140",
                supported_architectures_15 fsA
                  (inst_vs2017.root_path ++ ["VC", "Auxiliary", "Build"])⟩]
            else []),
          excluded_toolsets := [] } := by
  exact C5_v140_twin_iff fsA [inst_vs2017, inst_vs2015b] inst_vs2017 [] ⟨[], [], []⟩
    [] ["vs2017", "VC", "Tools", "MSVC", "14.1"] [] (by decide) (by decide) (by decide)
    (by simp) (by decide) (by decide)

/-! Order theory of the lexicographic string comparison (C4). -/

theorem chars_lt_irrefl (l : List Char) : chars_lt l l = false := by
  induction l with
  | nil => rfl
  | cons a l ih => simp [chars_lt, ih]

theorem chars_lt_asymm : ∀ {a b : List Char}, chars_lt a b = true → chars_lt b a = false
  | [], [], h => by simp [chars_lt] at h
  | [], _ :: _, _ => rfl
  | _ :: _, [], h => by simp [chars_lt] at h
  | x :: xs, y :: ys, h => by
    by_cases hxy : x < y
    · have hyx : ¬ y < x := lt_asymm hxy
      simp [chars_lt, hxy, hyx]
    · by_cases hyx : y < x
      · simp [chars_lt, hxy, hyx] at h
      · have h' : chars_lt xs ys = true := by simpa [chars_lt, hxy, hyx] using h
        simp [chars_lt, hxy, hyx, chars_lt_asymm h']

theorem chars_lt_trans : ∀ {a b c : List Char}, chars_lt a b = true →
    chars_lt b c = true → chars_lt a c = true
  | [], b, c, hab, hbc => by
    cases b with
    | nil => simp [chars_lt] at hab
    | cons y ys =>
      cases c with
      | nil => simp [chars_lt] at hbc
      | cons z zs => rfl
  | _ :: _, [], _, hab, _ => by simp [chars_lt] at hab
  | _ :: _, _ :: _, [], _, hbc => by simp [chars_lt] at hbc
  | x :: xs, y :: ys, z :: zs, hab, hbc => by
    by_cases hxy : x < y
    · by_cases hyz : y < z
      · simp [chars_lt, lt_trans hxy hyz]
      · by_cases hzy : z < y
        · simp [chars_lt, hyz, hzy] at hbc
        · have heq : y = z := le_antisymm (not_lt.mp hzy) (not_lt.mp hyz)
          subst heq
          simp [chars_lt, hxy]
    · by_cases hyx : y < x
      · simp [chars_lt, hxy, hyx] at hab
      · have heq : x = y := le_antisymm (not_lt.mp hyx) (not_lt.mp hxy)
        subst heq
        have hab' : chars_lt xs ys = true := by simpa [chars_lt, hxy] using hab
        by_cases hyz : x < z
        · simp [chars_lt, hyz]
        · by_cases hzy : z < x
          · simp [chars_lt, hyz, hzy] at hbc
          · have hbc' : chars_lt ys zs = true := by simpa [chars_lt, hyz, hzy] using hbc
            simp [chars_lt, hyz, hzy, chars_lt_trans hab' hbc']

theorem chars_lt_total : ∀ {a b : List Char}, chars_lt a b = false →
    chars_lt b a = false → a = b
  | [], [], _, _ => rfl
  | [], _ :: _, hab, _ => by simp [chars_lt] at hab
  | _ :: _, [], _, hba => by simp [chars_lt] at hba
  | x :: xs, y :: ys, hab, hba => by
    by_cases hxy : x < y
    · simp [chars_lt, hxy] at hab
    · by_cases hyx : y < x
      · simp [chars_lt, hyx] at hba
      · have heq : x = y := le_antisymm (not_lt.mp hyx) (not_lt.mp hxy)
        subst heq
        have h1 : chars_lt xs ys = false := by simpa [chars_lt, hxy] using hab
        have h2 : chars_lt ys xs = false := by simpa [chars_lt, hxy] using hba
        rw [chars_lt_total h1 h2]

theorem string_lt_irrefl (s : String) : string_lt s s = false :=
  chars_lt_irrefl s.data

theorem string_lt_asymm {a b : String} (h : string_lt a b = true) : string_lt b a = false :=
  chars_lt_asymm h

theorem string_lt_eq_of_not {a b : String} (h1 : string_lt a b = false)
    (h2 : string_lt b a = false) : a = b :=
  String.ext (chars_lt_total h1 h2)

theorem string_lt_false_trans {a b c : String} (h1 : string_lt a b = false)
    (h2 : string_lt b c = false) : string_lt a c = false := by
  rcases hac : string_lt a c with _ | _
  · rfl
  · exfalso
    rcases hba : string_lt b a with _ | _
    · have hab : a = b := string_lt_eq_of_not h1 hba
      subst hab
      rw [hac] at h2
      simp at h2
    · rcases hcb : string_lt c b with _ | _
      · have hbc : b = c := string_lt_eq_of_not h2 hcb
        subst hbc
        rw [hac] at h1
        simp at h1
      · have : string_lt c a = true := chars_lt_trans hcb hba
        rw [string_lt_asymm hac] at this
        simp at this

/-! Order theory of the preferred-first comparator. -/

theorem weight_inj {a b : ReleaseType}
    (h : get_preference_weight a = get_preference_weight b) : a = b := by
  cases a <;> cases b <;> simp_all [get_preference_weight]

/-- Characterization of the comparator: strictly preferred means strictly
greater tier weight, or equal tier and strictly greater version text. -/
theorem comparator_true_iff (a b : VisualStudioInstance) :
    preferred_first_comparator a b = true ↔
      (get_preference_weight b.release_type < get_preference_weight a.release_type ∨
        (a.release_type = b.release_type ∧ string_lt b.version a.version = true)) := by
  unfold preferred_first_comparator
  by_cases h : a.release_type = b.release_type
  · simp [h]
  · simp [h]

theorem comparator_false_iff (a b : VisualStudioInstance) :
    preferred_first_comparator a b = false ↔
      (¬ get_preference_weight b.release_type < get_preference_weight a.release_type ∧
        (a.release_type = b.release_type → string_lt b.version a.version = false)) := by
  rw [← Bool.not_eq_true, comparator_true_iff]
  constructor
  · intro h
    refine ⟨fun hw => h (Or.inl hw), fun hrt => ?_⟩
    rcases hb : string_lt b.version a.version with _ | _
    · rfl
    · exact absurd (Or.inr ⟨hrt, hb⟩) h
  · rintro ⟨hw, hs⟩ (h | ⟨hrt, hv⟩)
    · exact hw h
    · rw [hs hrt] at hv
      simp at hv

theorem comparator_asymm {a b : VisualStudioInstance}
    (h : preferred_first_comparator a b = true) :
    preferred_first_comparator b a = false := by
  rcases (comparator_true_iff a b).mp h with hw | ⟨hrt, hv⟩
  · rw [comparator_false_iff]
    exact ⟨fun hw' => absurd hw (not_lt.mpr (le_of_lt hw')),
      fun hrt => absurd hw (by rw [hrt]; exact lt_irrefl _)⟩
  · rw [comparator_false_iff]
    refine ⟨?_, fun _ => string_lt_asymm hv⟩
    rw [hrt]
    exact lt_irrefl _

theorem comparator_false_trans {a b c : VisualStudioInstance}
    (h1 : preferred_first_comparator b a = false)
    (h2 : preferred_first_comparator c b = false) :
    preferred_first_comparator c a = false := by
  rcases (comparator_false_iff b a).mp h1 with ⟨hw1, hs1⟩
  rcases (comparator_false_iff c b).mp h2 with ⟨hw2, hs2⟩
  rw [comparator_false_iff]
  constructor
  · intro hw
    have hba : get_preference_weight b.release_type ≤ get_preference_weight a.release_type :=
      not_lt.mp hw1
    have hcb : get_preference_weight c.release_type ≤ get_preference_weight b.release_type :=
      not_lt.mp hw2
    exact absurd hw (not_lt.mpr (le_trans hcb hba))
  · intro hrt
    have hwca : get_preference_weight c.release_type = get_preference_weight a.release_type := by
      rw [hrt]
    have hwba : get_preference_weight b.release_type = get_preference_weight a.release_type :=
      le_antisymm (not_lt.mp hw1) (by rw [← hwca]; exact not_lt.mp hw2)
    have hba : b.release_type = a.release_type := weight_inj hwba
    have hcb : c.release_type = b.release_type := by rw [hba, hrt]
    exact string_lt_false_trans (hs1 hba) (hs2 hcb)

/-- Key-equal instances are never strictly preferred over one another. -/
theorem comparator_eq_key {a b : VisualStudioInstance}
    (hrt : a.release_type = b.release_type) (hv : a.version = b.version) :
    preferred_first_comparator a b = false := by
  rw [comparator_false_iff]
  refine ⟨?_, fun _ => ?_⟩
  · rw [hrt]
    exact lt_irrefl _
  · rw [hv]
    exact string_lt_irrefl _

/-! Sortedness and stability of the ranking. -/

theorem ordered_insert_pairwise (a : VisualStudioInstance)
    (l : List VisualStudioInstance)
    (hl : l.Pairwise (fun x y => preferred_first_comparator y x = false)) :
    (ordered_insert a l).Pairwise (fun x y => preferred_first_comparator y x = false) := by
  induction l with
  | nil => simp [ordered_insert]
  | cons b l ih =>
    rcases List.pairwise_cons.mp hl with ⟨hb, hl'⟩
    by_cases h : preferred_first_comparator b a = true
    · simp only [ordered_insert, h, if_true]
      rw [List.pairwise_cons]
      refine ⟨?_, ih hl'⟩
      intro x hx
      rcases List.mem_cons.mp ((ordered_insert_perm a l).mem_iff.mp hx) with rfl | hx'
      · exact comparator_asymm h
      · exact hb x hx'
    · have h' : preferred_first_comparator b a = false := by simpa using h
      simp only [ordered_insert, h', Bool.false_eq_true, if_false]
      rw [List.pairwise_cons]
      refine ⟨?_, hl⟩
      intro x hx
      rcases List.mem_cons.mp hx with rfl | hx'
      · exact h'
      · exact comparator_false_trans h' (hb x hx')

theorem stable_sort_pairwise (l : List VisualStudioInstance) :
    (stable_sort_preferred l).Pairwise
      (fun x y => preferred_first_comparator y x = false) := by
  induction l with
  | nil => simp [stable_sort_preferred]
  | cons a l ih => exact ordered_insert_pairwise a _ ih

theorem filter_ordered_insert_neg (p : VisualStudioInstance → Bool)
    (a : VisualStudioInstance) (l : List VisualStudioInstance) (hpa : p a = false) :
    (ordered_insert a l).filter p = l.filter p := by
  induction l with
  | nil => simp [ordered_insert, hpa]
  | cons b l ih =>
    by_cases h : preferred_first_comparator b a = true
    · simp only [ordered_insert, h, if_true, List.filter_cons, ih]
    · have h' : preferred_first_comparator b a = false := by simpa using h
      simp [ordered_insert, h', hpa, List.filter_cons]

theorem filter_ordered_insert_pos (p : VisualStudioInstance → Bool)
    (a : VisualStudioInstance) (l : List VisualStudioInstance) (hpa : p a = true)
    (hties : ∀ b ∈ l, p b = true → preferred_first_comparator b a = false) :
    (ordered_insert a l).filter p = a :: l.filter p := by
  induction l with
  | nil => simp [ordered_insert, hpa]
  | cons b l ih =>
    by_cases h : preferred_first_comparator b a = true
    · have hpb : p b = false := by
        rcases hpb : p b with _ | _
        · rfl
        · rw [hties b (List.mem_cons_self b l) hpb] at h
          simp at h
      rw [show (ordered_insert a (b :: l)).filter p =
          (b :: ordered_insert a l).filter p by simp [ordered_insert, h]]
      simp only [List.filter_cons, hpb, Bool.false_eq_true, if_false]
      exact ih (fun x hx hpx => hties x (List.mem_cons_of_mem b hx) hpx)
    · have h' : preferred_first_comparator b a = false := by simpa using h
      simp [ordered_insert, h', List.filter_cons, hpa]

theorem stable_sort_filter_key (rt : ReleaseType) (v : String)
    (l : List VisualStudioInstance) :
    (stable_sort_preferred l).filter
        (fun x => decide (x.release_type = rt) && decide (x.version = v)) =
      l.filter (fun x => decide (x.release_type = rt) && decide (x.version = v)) := by
  induction l with
  | nil => rfl
  | cons a l ih =>
    rcases hpa : (decide (a.release_type = rt) && decide (a.version = v)) with _ | _
    · rw [stable_sort_preferred, filter_ordered_insert_neg _ a _ hpa, ih,
        List.filter_cons, hpa]
      simp
    · have ha : a.release_type = rt ∧ a.version = v := by simpa using hpa
      rw [stable_sort_preferred,
        filter_ordered_insert_pos _ a _ hpa ?ties, ih, List.filter_cons, hpa]
      · simp
      case ties =>
        intro b hb hpb
        have hbk : b.release_type = rt ∧ b.version = v := by simpa using hpb
        exact comparator_eq_key (by rw [hbk.1, ha.1]) (by rw [hbk.2, ha.2])

/-- **C4**: the ranked list is ordered as a stable total preorder: tier
weights are non-increasing (so every Stable-tier instance precedes every
Prerelease-tier instance, which precedes every Legacy-tier instance), within
a tier the version text never increases lexicographically, and instances
with the same tier and version text keep their relative discovery order
(their filtered subsequence is unchanged). -/
theorem C4_ranking_stable_total_preorder (instances : List VisualStudioInstance) :
    (stable_sort_preferred instances).Pairwise (fun a b =>
        get_preference_weight b.release_type ≤ get_preference_weight a.release_type ∧
          (a.release_type = b.release_type → string_lt a.version b.version = false)) ∧
    (∀ (rt : ReleaseType) (v : String),
      (stable_sort_preferred instances).filter
          (fun x => decide (x.release_type = rt) && decide (x.version = v)) =
        instances.filter (fun x => decide (x.release_type = rt) && decide (x.version = v))) := by
  constructor
  · refine (stable_sort_pairwise instances).imp ?_
    intro a b h
    rcases (comparator_false_iff b a).mp h with ⟨hw, hs⟩
    refine ⟨not_lt.mp hw, fun hab => ?_⟩
    exact hs hab.symm
  · intro rt v
    exact stable_sort_filter_key rt v instances

/-- Witness for C4: evaluated on a two-element discovery list given in
reverse-preferred order. -/
theorem C4_witness :
    (stable_sort_preferred [inst_vs2015b, inst_vs2017]).Pairwise (fun a b =>
        get_preference_weight b.release_type ≤ get_preference_weight a.release_type ∧
          (a.release_type = b.release_type → string_lt a.version b.version = false)) ∧
    (∀ (rt : ReleaseType) (v : String),
      (stable_sort_preferred [inst_vs2015b, inst_vs2017]).filter
          (fun x => decide (x.release_type = rt) && decide (x.version = v)) =
        [inst_vs2015b, inst_vs2017].filter
          (fun x => decide (x.release_type = rt) && decide (x.version = v))) :=
  C4_ranking_stable_total_preorder [inst_vs2015b, inst_vs2017]

/-! The instance enumerator (C6, C8, C9). -/

/-- The only abnormal outcome of building one instance from a record is the
internal-consistency abort. -/
theorem instance_of_entry_error_unreachable {e : InstanceEntry} {a : Abort}
    (h : instance_of_entry e = Except.error a) : a = Abort.unreachable := by
  rcases hp : e.isPrerelease with _ | s
  · simp [instance_of_entry, parse_release_type, hp] at h
  · by_cases h0 : s = "0"
    · simp [instance_of_entry, parse_release_type, hp, h0] at h
    · by_cases h1 : s = "1"
      · simp [instance_of_entry, parse_release_type, hp, h0, h1] at h
      · simp [instance_of_entry, parse_release_type, hp, h0, h1] at h
        exact h.symm

/-- If any record carries an out-of-range prerelease flag, the extraction
loop aborts with the internal-consistency violation. -/
theorem instances_of_entries_error_unreachable {entries : List InstanceEntry}
    {e : InstanceEntry} (he : e ∈ entries) {s : String} (hp : e.isPrerelease = some s)
    (h0 : s ≠ "0") (h1 : s ≠ "1") :
    instances_of_entries entries = Except.error Abort.unreachable := by
  induction entries with
  | nil => cases he
  | cons x rest ih =>
    rcases List.mem_cons.mp he with rfl | he'
    · have hx : instance_of_entry e = Except.error Abort.unreachable := by
        simp [instance_of_entry, parse_release_type, hp, h0, h1]
      simp [instances_of_entries, hx]
    · cases hx : instance_of_entry x with
      | error a =>
        have ha := instance_of_entry_error_unreachable hx
        subst ha
        simp [instances_of_entries, hx]
      | ok i => simp [instances_of_entries, hx, ih he']

/-- **C6**: the tier assignment per extracted record is: flag absent means
Legacy, "0" means Stable, "1" means Prerelease, and any other flag value is
an internal-consistency violation (`Checks::unreachable`), which aborts the
whole enumeration rather than producing an instance or a user-facing error. -/
theorem C6_tier_assignment_and_abort :
    parse_release_type none = Except.ok ReleaseType.LEGACY ∧
    parse_release_type (some "0") = Except.ok ReleaseType.STABLE ∧
    parse_release_type (some "1") = Except.ok ReleaseType.PRERELEASE ∧
    (∀ s : String, s ≠ "0" → s ≠ "1" →
      parse_release_type (some s) = Except.error Abort.unreachable) ∧
    (∀ (env : EnumEnv) (e : InstanceEntry) (s : String),
      env.fs.fexists (vswhere_exe_path env) = true → env.vswhere_exit_code = 0 →
      e ∈ env.vswhere_instances → e.isPrerelease = some s → s ≠ "0" → s ≠ "1" →
      get_visual_studio_instances env = Except.error Abort.unreachable) := by
  refine ⟨rfl, rfl, rfl, ?_, ?_⟩
  · intro s h0 h1
    simp [parse_release_type, h0, h1]
  · intro env e s hvw hexit he hp h0 h1
    have herr := instances_of_entries_error_unreachable he hp h0 h1
    simp [get_visual_studio_instances, hvw, hexit, herr]

/-- Witness for C6: a record with flag "2" aborts the enumeration with the
internal-consistency violation. -/
theorem C6_witness :
    get_visual_studio_instances envC6 = Except.error Abort.unreachable := by
  exact C6_tier_assignment_and_abort.2.2.2.2 envC6 ⟨some "2", ["vsroot"], "15.9"⟩ "2"
    (by decide) (by decide) (by decide) rfl (by decide) (by decide)

/-- Members produced by `append_if_has_cl` are always Legacy with version
"14.0". -/
theorem mem_append_if_has_cl {fs : Filesystem} {r : Path} {i : VisualStudioInstance}
    (h : i ∈ append_if_has_cl fs r) :
    i.release_type = ReleaseType.LEGACY ∧ i.version = "14.0" := by
  unfold append_if_has_cl at h
  split at h
  · rw [List.mem_singleton] at h
    subst h
    exact ⟨rfl, rfl⟩
  · cases h

/-- **C8**: if the installer-query executable exists and returns a non-zero
exit code, the enumeration aborts immediately surfacing the captured output
and produces no partial result; if the executable is absent, that source
contributes zero instances (everything returned comes from the legacy
probes, tagged Legacy / "14.0") and no error occurs. -/
theorem C8_query_tool_failure_or_absence (env : EnumEnv) :
    (env.fs.fexists (vswhere_exe_path env) = true → env.vswhere_exit_code ≠ 0 →
      get_visual_studio_instances env =
        Except.error (Abort.check_exit env.vswhere_output)) ∧
    (env.fs.fexists (vswhere_exe_path env) = false →
      ∃ l, get_visual_studio_instances env = Except.ok l ∧
        ∀ i ∈ l, i.release_type = ReleaseType.LEGACY ∧ i.version = "14.0") := by
  constructor
  · intro hvw hexit
    simp [get_visual_studio_instances, hvw, hexit]
  · intro hvw
    refine ⟨(match env.vs140comntools with
        | some common7_tools =>
          append_if_has_cl env.fs common7_tools.dropLast.dropLast ++
            append_if_has_cl env.fs common7_tools.dropLast.dropLast.dropLast
        | none => []) ++
      append_if_has_cl env.fs (env.program_files_32_bit ++ ["Microsoft Visual Studio 14.0"]),
      ?_, ?_⟩
    · simp [get_visual_studio_instances, hvw]
    · intro i hi
      rcases List.mem_append.mp hi with hi | hi
      · rcases henv : env.vs140comntools with _ | p
        · rw [henv] at hi
          cases hi
        · rw [henv] at hi
          rcases List.mem_append.mp hi with hi | hi
          · exact mem_append_if_has_cl hi
          · exact mem_append_if_has_cl hi
      · exact mem_append_if_has_cl hi

/-- Witness for C8: a failing query tool aborts with its captured output. -/
theorem C8_witness :
    get_visual_studio_instances envC8 =
      Except.error (Abort.check_exit envC8.vswhere_output) := by
  exact (C8_query_tool_failure_or_absence envC8).1 (by decide) (by decide)

/-- **C9**: with the legacy environment variable set to `p`, the enumerator's
result decomposes into the query-tool part followed by exactly the probes of
the two derived candidates (two and three trailing segments stripped from
`p`) and of the fixed default install path under the program-files root; and
each such probe contributes the Legacy/"14.0" instance for its root if and
only if both the fixed compiler executable and the fixed environment-setup
script exist under it. -/
theorem C9_legacy_env_var_candidates (env : EnumEnv) (p : Path)
    (l : List VisualStudioInstance)
    (henv : env.vs140comntools = some p)
    (hok : get_visual_studio_instances env = Except.ok l) :
    (∃ vswhere_part : List VisualStudioInstance,
      l = vswhere_part ++
        (append_if_has_cl env.fs p.dropLast.dropLast ++
          (append_if_has_cl env.fs p.dropLast.dropLast.dropLast ++
            append_if_has_cl env.fs
              (env.program_files_32_bit ++ ["Microsoft Visual Studio 14.0"])))) ∧
    (∀ r : Path, append_if_has_cl env.fs r =
      if env.fs.fexists (r ++ ["VC", "bin", "cl.exe"]) = true ∧
          env.fs.fexists (r ++ ["VC", "vcvarsall.bat"]) = true then
        [⟨r, "14.0", ReleaseType.LEGACY⟩]
      else []) := by
  constructor
  · by_cases hvw : env.fs.fexists (vswhere_exe_path env) = true
    · by_cases hexit : env.vswhere_exit_code = 0
      · cases hres : instances_of_entries env.vswhere_instances with
        | error a =>
          unfold get_visual_studio_instances at hok
          simp [hvw, hexit, hres] at hok
        | ok vw =>
          unfold get_visual_studio_instances at hok
          simp [hvw, hexit, hres, henv] at hok
          exact ⟨vw, by simpa using hok.symm⟩
      · unfold get_visual_studio_instances at hok
        simp [hvw, hexit] at hok
    · have hvw' : env.fs.fexists (vswhere_exe_path env) = false := by simpa using hvw
      unfold get_visual_studio_instances at hok
      simp [hvw', henv] at hok
      exact ⟨[], by simpa using hok.symm⟩
  · intro r
    by_cases h1 : env.fs.fexists (r ++ ["VC", "bin", "cl.exe"]) = true
    · by_cases h2 : env.fs.fexists (r ++ ["VC", "vcvarsall.bat"]) = true
      · simp [append_if_has_cl, h1, h2]
      · simp [append_if_has_cl, h1, h2]
    · simp [append_if_has_cl, h1]

/-- Witness for C9: stripping two segments from the environment value finds
the legacy suite under root `d`; the three-segment candidate and the default
path fail their existence gates. -/
theorem C9_witness :
    (∃ vswhere_part : List VisualStudioInstance,
      [VisualStudioInstance.mk ["d"] "14.0" ReleaseType.LEGACY] = vswhere_part ++
        (append_if_has_cl envC9.fs (["d", "Common7", "Tools"] : Path).dropLast.dropLast ++
          (append_if_has_cl envC9.fs
              (["d", "Common7", "Tools"] : Path).dropLast.dropLast.dropLast ++
            append_if_has_cl envC9.fs
              (envC9.program_files_32_bit ++ ["Microsoft Visual Studio 14.0"])))) ∧
    (∀ r : Path, append_if_has_cl envC9.fs r =
      if envC9.fs.fexists (r ++ ["VC", "bin", "cl.exe"]) = true ∧
          envC9.fs.fexists (r ++ ["VC", "vcvarsall.bat"]) = true then
        [⟨r, "14.0", ReleaseType.LEGACY⟩]
      else []) := by
  exact C9_legacy_env_var_candidates envC9 ["d", "Common7", "Tools"]
    [⟨["d"], "14.0", ReleaseType.LEGACY⟩] rfl rfl

end Vcpkg
